import Mathlib

set_option maxRecDepth 20000
set_option maxHeartbeats 1000000

/-
Verification of the email intake and classification pipeline
(source: the lambda handler module of the email-classifier-service).

The embedding models the per-email decision cascade of the handler,
the rule tables, the domain matcher, the AI-classifier fallback,
the sender-history lookup, the learned-pattern check, and the batch
loop with its per-email error isolation.  Network calls and SQL
queries are modelled as oracle inputs (an EmailEnv per email); side
effects on the mailbox and the persistence store are recorded
explicitly (Effect, Row).  JavaScript strings are plain Lean strings;
JavaScript numbers that carry decision weight (confidences, response
rates) are rationals.
-/

/-! String helpers mirroring the JavaScript primitives used in the
source (includes, endsWith, toLowerCase, split at the at-sign).  They
are written on character lists with structural recursion so that every
claim can be evaluated on concrete inputs by kernel reduction. -/

/-- Contiguous-sublist test on character lists. -/
def charsInfixOf (pat : List Char) : List Char → Bool
  | [] => pat.isEmpty
  | c :: t => pat.isPrefixOf (c :: t) || charsInfixOf pat t

/-- JavaScript s.includes(pat): pat occurs as a contiguous substring. -/
def strIncludes (s pat : String) : Bool :=
  charsInfixOf pat.toList s.toList

/-- JavaScript s.endsWith(pat). -/
def strEndsWith (s pat : String) : Bool :=
  pat.toList.isSuffixOf s.toList

/-- ASCII lower-casing of one character, as toLowerCase does on the
ASCII inputs this pipeline sees. -/
def lowerChar (c : Char) : Char :=
  if 65 ≤ c.toNat ∧ c.toNat ≤ 90 then Char.ofNat (c.toNat + 32) else c

/-- JavaScript s.toLowerCase() on ASCII strings. -/
def strToLower (s : String) : String :=
  ⟨s.toList.map lowerChar⟩

/-- The JavaScript idiom x || two-quotes on an optional string:
undefined collapses to the empty string. -/
def orEmpty : Option String → String
  | none => ""
  | some s => s

/-- Characters strictly before the first at-sign. -/
def beforeAt : List Char → List Char
  | [] => []
  | c :: t => if c.toNat = 64 then [] else c :: beforeAt t

/-- Characters after the first at-sign, if the list has one. -/
def afterAt : List Char → Option (List Char)
  | [] => none
  | c :: t => if c.toNat = 64 then some t else afterAt t

/-- JavaScript s.split(at-sign)[1]: the segment between the first and
second at-sign; the empty string when s has no at-sign (the source
guards those call sites with an includes check). -/
def splitGetOne (s : String) : String :=
  match afterAt s.toList with
  | none => ""
  | some rest => ⟨beforeAt rest⟩

/-! Configuration tables, copied from the source module. -/

/-- Source: CLASSIFICATIONS_TO_FLAG. -/
def CLASSIFICATIONS_TO_FLAG : List String :=
  ["ANGRY_CUSTOMER", "COMPLAINT", "URGENT_REQUEST", "QUOTE_REQUEST",
   "NEW_LEAD", "PURCHASE_INTENT", "PRICING_INQUIRY", "GENERAL_INQUIRY",
   "PRODUCT_QUESTION", "CUSTOMER_SUPPORT_REQUEST", "TESTIMONIAL",
   "THANK_YOU", "PURCHASE_ORDER_FORWARD"]

/-- Source: CLASSIFICATIONS_TO_SKIP. -/
def CLASSIFICATIONS_TO_SKIP : List String :=
  ["SPAM_PHISHING", "MARKETING_PROMOTIONAL", "OUT_OF_OFFICE",
   "SYSTEM_NOTIFICATION", "PERSONAL_INTERNAL", "NEWSLETTER_SIGNUP",
   "VENDOR_BUSINESS", "AMAZON_NOTIFICATION", "FREIGHT_NOTIFICATION",
   "PAYMENT_NOTIFICATION", "SURVEY_RESPONSE"]

/-- Source: SYSTEM_DOMAINS, the system-notification domain denylist. -/
def SYSTEM_DOMAINS : List String :=
  ["amazon.com", "amazonservices.com", "marketplace.amazon.com",
   "sellercentral.amazon.com", "shopify.com", "shop.app",
   "fedex.com", "ups.com", "xpo.com", "odfl.com", "yrc.com",
   "estes-express.com", "rlcarriers.com", "saia.com", "abf.com",
   "lojistic.com", "stripe.com", "paypal.com", "square.com",
   "authorize.net", "bill.com", "klaviyo.com", "mailchimp.com",
   "constantcontact.com", "ndia.org", "tiktok.com", "tiktokshop.com",
   "linkedin.com", "yotpo.com", "ccsend.com", "github.com",
   "vercel.com", "eventbrite.com", "canva.com", "emmerandrye.com",
   "shipstation.com"]

/-- One entry of AUTO_SKIP_RULES or AUTO_FLAG_RULES.  Undefined
domains or addresses collapse to the empty list, which behaves
identically under the some-or-false idiom of the source; the
subject-keyword list stays optional because its absence disables the
keyword filter while an empty list would reject every email. -/
structure SenderRule where
  name : String
  classification : String
  reason : String
  matchAll : Bool := false
  domains : List String := []
  addresses : List String := []
  subjectKeywords : Option (List String) := none
  confidence : Option ℚ := none
deriving DecidableEq

/-- Source: AUTO_SKIP_RULES. -/
def AUTO_SKIP_RULES : List SenderRule :=
  [{ name := "TikTok Shop Support Survey",
     classification := "SYSTEM_NOTIFICATION",
     reason := "Automatic feedback request from TikTok Shop support",
     domains := ["tiktok.com", "tiktokshop.com"],
     subjectKeywords := some ["support", "ticket", "onboarding", "feedback", "rate your experience"] },
   { name := "LinkedIn Notifications",
     classification := "MARKETING_PROMOTIONAL",
     reason := "LinkedIn marketing or notification email",
     domains := ["linkedin.com"] },
   { name := "Yotpo Review Requests",
     classification := "SYSTEM_NOTIFICATION",
     reason := "Automated Yotpo review system message",
     domains := ["yotpo.com"] },
   { name := "Constant Contact Marketing",
     classification := "MARKETING_PROMOTIONAL",
     reason := "Newsletter sent via Constant Contact",
     domains := ["ccsend.com", "constantcontact.com"] },
   { name := "GitHub Notifications",
     classification := "SYSTEM_NOTIFICATION",
     reason := "Automated GitHub notification",
     domains := ["github.com"] },
   { name := "Eventbrite Marketing",
     classification := "MARKETING_PROMOTIONAL",
     reason := "Eventbrite marketing or promotional campaign",
     domains := ["eventbrite.com"] },
   { name := "Canva Notifications",
     classification := "MARKETING_PROMOTIONAL",
     reason := "Automated Canva account or marketing notification",
     domains := ["canva.com"] },
   { name := "Emmer and Rye Hospitality",
     classification := "MARKETING_PROMOTIONAL",
     reason := "Hospitality group marketing or community announcement",
     domains := ["emmerandrye.com"] },
   { name := "ShipStation Tracking",
     classification := "SYSTEM_NOTIFICATION",
     reason := "Automated shipment or tracking update from ShipStation",
     domains := ["shipstation.com"],
     subjectKeywords := some ["tracking", "shipment", "fulfillment", "package"] },
   { name := "Automatic Reply Subject",
     classification := "OUT_OF_OFFICE",
     reason := "Automatic reply detected in subject line",
     matchAll := true,
     subjectKeywords := some ["automatic reply:", "automatic reply", "auto reply", "autoreply",
       "out of office", "out-of-office"] }]

/-- Source: AUTO_FLAG_RULES. -/
def AUTO_FLAG_RULES : List SenderRule :=
  [{ name := "Shopify Mailer Alerts",
     classification := "CUSTOMER_SUPPORT_REQUEST",
     reason := "Shopify order or fulfillment notification requiring follow-up",
     addresses := ["mailer@shopify.com"],
     domains := ["shopify.com"],
     confidence := some 0.95 }]

/-! The domain matcher and the rule engine. -/

/-- Source: matchesDomain.  Empty strings are JavaScript-falsy, so
either argument empty yields false before the suffix test runs. -/
def matchesDomain (senderDomain domain : String) : Bool :=
  if senderDomain = "" ∨ domain = "" then false
  else senderDomain == domain || strEndsWith senderDomain ("." ++ domain)

/-- The domain-matching relation as the spec words it: D matches C iff
D equals C or D ends with a dot followed by C.  Kept separate from
matchesDomain so the two can be compared. -/
def specDomainMatches (d c : String) : Bool :=
  d == c || strEndsWith d ("." ++ c)

/-- Source: isSystemNotificationDomain. -/
def isSystemNotificationDomain (senderDomain : String) : Bool :=
  SYSTEM_DOMAINS.any (fun domain => matchesDomain senderDomain domain)

/-- One email as listed by the mailbox client (the fields the handler
reads; optional chains in the source become Option fields). -/
structure Email where
  id : String
  subject : Option String := none
  fromAddress : Option String := none
  fromName : Option String := none
  bodyPreview : Option String := none
  hasAttachments : Bool := false
  internetMessageId : Option String := none
deriving DecidableEq

/-- Whether one rule matches, shared by the auto-skip and auto-flag
loops, whose bodies are identical up to the projected result: the rule
fires when matchAll is set or the sender domain or address matches,
and, when subject keywords are configured, at least one of them occurs
in the lower-cased subject. -/
def ruleMatches (senderEmail senderDomain subject : String) (r : SenderRule) : Bool :=
  let domainMatch := r.domains.any (fun domain => matchesDomain senderDomain domain)
  let addressMatch := r.addresses.contains senderEmail
  if !r.matchAll && !domainMatch && !addressMatch then false
  else
    match r.subjectKeywords with
    | some kws => kws.any (fun keyword => strIncludes subject keyword)
    | none => true

/-- The projection getAutoSkipRule returns on a match. -/
structure SkipMatch where
  classification : String
  reason : String
  name : String
deriving DecidableEq

/-- The projection getAutoFlagRule returns on a match. -/
structure FlagMatch where
  classification : String
  confidence : Option ℚ
  reason : String
  name : String
deriving DecidableEq

/-- Source: getAutoSkipRule. -/
def getAutoSkipRule (email : Email) : Option SkipMatch :=
  let senderEmail := strToLower (orEmpty email.fromAddress)
  if senderEmail = "" then none
  else
    let senderDomain := if strIncludes senderEmail "@" then splitGetOne senderEmail else ""
    let subject := strToLower (orEmpty email.subject)
    (AUTO_SKIP_RULES.find? (ruleMatches senderEmail senderDomain subject)).map
      (fun r => { classification := r.classification, reason := r.reason, name := r.name })

/-- Source: getAutoFlagRule. -/
def getAutoFlagRule (email : Email) : Option FlagMatch :=
  let senderEmail := strToLower (orEmpty email.fromAddress)
  if senderEmail = "" then none
  else
    let senderDomain := if strIncludes senderEmail "@" then splitGetOne senderEmail else ""
    let subject := strToLower (orEmpty email.subject)
    (AUTO_FLAG_RULES.find? (ruleMatches senderEmail senderDomain subject)).map
      (fun r => { classification := r.classification, confidence := r.confidence,
                  reason := r.reason, name := r.name })

/-! The Amazon marketplace detector, including an executable model of
the relay-address regular expression. -/

/-- Character class [a-z0-9] of the relay regex. -/
def isLowerAlnum (c : Char) : Bool :=
  (97 ≤ c.toNat && c.toNat ≤ 122) || (48 ≤ c.toNat && c.toNat ≤ 57)

/-- Character class [a-f0-9-] of the relay regex. -/
def isHexOrDash (c : Char) : Bool :=
  (97 ≤ c.toNat && c.toNat ≤ 102) || (48 ≤ c.toNat && c.toNat ≤ 57) || c.toNat = 45

/-- Attempt to match the relay pattern at the head of the list: a
nonempty [a-z0-9] run, a plus sign, a nonempty [a-f0-9-] run, then
the literal marketplace suffix.  The runs are taken greedily, which
is equivalent to the regex here because neither class contains the
character that must follow the run. -/
def amazonRelayAt (l : List Char) : Bool :=
  match l.dropWhile isLowerAlnum with
  | c :: l2 =>
    c.toNat = 43 &&
    (match l2 with
     | d :: _ => isHexOrDash d
     | [] => false) &&
    ("@marketplace.amazon.com").toList.isPrefixOf (l2.dropWhile isHexOrDash)
  | [] => false

/-- Scan every position for a relay-pattern match, requiring the first
run to be nonempty. -/
def amazonRelayScan : List Char → Bool
  | [] => false
  | c :: t => (isLowerAlnum c && amazonRelayAt (c :: t)) || amazonRelayScan t

/-- Model of the source regex test for marketplace relay addresses. -/
def amazonRelayMatch (s : String) : Bool :=
  amazonRelayScan s.toList

/-- Source: isAmazonEmail, the multi-signal marketplace detector. -/
def isAmazonEmail (email : Email) : Bool :=
  let fromAddr := strToLower (orEmpty email.fromAddress)
  let senderName := strToLower (orEmpty email.fromName)
  let subject := strToLower (orEmpty email.subject)
  let body := strToLower (orEmpty email.bodyPreview)
  strIncludes fromAddr "@amazon.com" ||
  strIncludes fromAddr "@amazonservices.com" ||
  strIncludes fromAddr "@marketplace.amazon.com" ||
  strIncludes fromAddr "marketplace.amazon" ||
  strIncludes senderName "amazon" ||
  strIncludes senderName "seller central" ||
  strIncludes senderName "marketplace" ||
  amazonRelayMatch fromAddr ||
  strIncludes body "spc-usamazon-" ||
  strIncludes body "seller central" ||
  strIncludes body "amazon services" ||
  strIncludes body "a-to-z guarantee" ||
  strIncludes body "amazon.com" ||
  strIncludes body "marketplace.amazon" ||
  strIncludes subject "a-to-z guarantee" ||
  strIncludes subject "return request" ||
  strIncludes subject "you have received a message" ||
  strIncludes subject "amazon" ||
  strIncludes subject "seller central" ||
  strIncludes subject "[commMgrTok:"

/-! The AI classifier and its fallback. -/

/-- How a single classification call can fail: empty completion,
completion that JSON.parse rejects, or a transport error. -/
inductive AiError where
  | emptyResponse
  | parseFailure
  | transportError
deriving DecidableEq

/-- The transient verdict passed between classification stages. -/
structure Verdict where
  classification : String
  confidence : ℚ
  reasoning : String
deriving DecidableEq

/-- The fixed fallback verdict returned when the AI call fails
(source: the final return of classifyEmail). -/
def fallbackVerdict : Verdict :=
  { classification := "CUSTOMER_SUPPORT_REQUEST",
    confidence := 0.5,
    reasoning := "AI classification failed, defaulting to manual review" }

/-- Source: classifyEmail.  The function makes exactly one completion
call; the argument is that single call outcome (a parsed verdict, or
the failure mode).  Any failure falls through to the fixed fallback
with no retry. -/
def classifyEmail (response : Except AiError Verdict) : Verdict :=
  match response with
  | Except.ok v => v
  | Except.error _ => fallbackVerdict

/-- classifyEmail against a stream of potential completion-call
outcomes: the source consults the provider once, so only the first
entry of the stream is ever used. -/
def classifyEmailWith (oracle : Nat → Except AiError Verdict) : Verdict :=
  classifyEmail (oracle 0)

/-! The sender-history service. -/

/-- Aggregate row returned by one feedback query (count, response
rate, and the possibly-NULL average response time in days). -/
structure FeedbackAgg where
  totalEmails : Nat
  responseRate : ℚ
  avgResponseTime : Option ℚ := none
deriving DecidableEq

/-- A sender-level or domain-level history snapshot. -/
inductive SenderHistory where
  | sender (email : String) (totalEmails : Nat) (responseRate : ℚ)
      (avgResponseTime : ℚ) (priority : String)
  | domain (domain : String) (totalEmails : Nat) (responseRate : ℚ)
      (priority : String)
deriving DecidableEq

/-- Sender-level priority ternary of the source. -/
def senderPriority (rate : ℚ) : String :=
  if rate > 0.7 then "high" else if rate < 0.2 then "low" else "medium"

/-- Domain-level priority ternary of the source. -/
def domainPriority (rate : ℚ) : String :=
  if rate > 0.6 then "high" else if rate < 0.3 then "low" else "medium"

/-- The domain-level fallback branch of getSenderHistory. -/
def domainSnapshot (senderDomain : String) (domainStats : Option FeedbackAgg) :
    Option SenderHistory :=
  match domainStats with
  | some g =>
    if 5 ≤ g.totalEmails then
      some (SenderHistory.domain senderDomain g.totalEmails g.responseRate
        (domainPriority g.responseRate))
    else none
  | none => none

/-- Source: getSenderHistory.  The two SQL aggregates are oracle
inputs; a query error is caught and yields null, as does a falsy
sender address.  A sender-level snapshot needs at least 2 observed
emails, the domain-level fallback at least 5. -/
def getSenderHistory (senderEmail : String)
    (senderStats domainStats : Option FeedbackAgg) (dbError : Bool) :
    Option SenderHistory :=
  if senderEmail = "" then none
  else if dbError then none
  else
    let senderDomain := splitGetOne senderEmail
    match senderStats with
    | some s =>
      if 2 ≤ s.totalEmails then
        some (SenderHistory.sender senderEmail s.totalEmails s.responseRate
          (s.avgResponseTime.getD 0) (senderPriority s.responseRate))
      else domainSnapshot senderDomain domainStats
    | none => domainSnapshot senderDomain domainStats

/-! The learned-pattern check. -/

/-- One row of the pattern table as the pattern query returns it. -/
structure PatternRow where
  patternType : String
  patternValue : String
  typicalClassification : String
  occurrenceCount : Nat
deriving DecidableEq

/-- The object checkLearnedPatterns returns on a hit. -/
structure LearnedVerdict where
  classification : String
  shouldFlag : Bool
  confidence : ℚ
  reasoning : String
deriving DecidableEq

/-- Source: checkLearnedPatterns.  The argument list is the result of
the pattern query (ordered by occurrence count, limited to one row by
the database).  A hit needs at least 3 occurrences and scales the
confidence as min(0.9, 0.6 + 0.05 times the count). -/
def checkLearnedPatterns (email : Email) (queryResult : List PatternRow) :
    Option LearnedVerdict :=
  if strToLower (orEmpty email.fromAddress) = "" then none
  else
    match queryResult with
    | [] => none
    | p :: _ =>
      if 3 ≤ p.occurrenceCount then
        some { classification := p.typicalClassification,
               shouldFlag := CLASSIFICATIONS_TO_FLAG.contains p.typicalClassification,
               confidence := min 0.9 (0.6 + (p.occurrenceCount : ℚ) * 0.05),
               reasoning := "Based on " ++ toString p.occurrenceCount ++
                 " previous emails from this " ++ p.patternType }
      else none

/-! The decision orchestrator: local values computed by the handler
for each email. -/

/-- Handler local fromAddress (lower-cased, empty when absent). -/
def handlerFromAddress (email : Email) : String :=
  strToLower (orEmpty email.fromAddress)

/-- Handler local senderDomain. -/
def handlerSenderDomain (email : Email) : String :=
  let f := handlerFromAddress email
  if strIncludes f "@" then splitGetOne f else ""

/-- Handler local: lower-cased subject. -/
def handlerSubject (email : Email) : String :=
  strToLower (orEmpty email.subject)

/-- Handler local isFromAndre: a substring test on the address. -/
def isFromAndre (email : Email) : Bool :=
  strIncludes (handlerFromAddress email) "andre@alliancechemical.com"

/-- Handler local mentionsPO: the subject contains po or purchase
order. -/
def mentionsPO (email : Email) : Bool :=
  strIncludes (handlerSubject email) "po" ||
  strIncludes (handlerSubject email) "purchase order"

/-- Guard of the purchase-order special case. -/
def andrePOCase (email : Email) : Bool :=
  isFromAndre email && email.hasAttachments && mentionsPO email

/-- Guard of the internal-domain hard skip: a substring test, not a
domain-equality test. -/
def isInternalAlliance (email : Email) : Bool :=
  strIncludes (handlerFromAddress email) "@alliancechemical.com"

/-! State of one orchestrator run: the persisted rows, the recorded
mailbox and webhook side effects, and the running statistics. -/

/-- One ProcessedEmail row as the handler inserts it (body and
aiFactors payloads elided; the decision-bearing columns kept). -/
structure Row where
  messageId : String
  classification : String
  status : String
  flagged : Bool
  aiReasoning : String
  aiConfidence : ℚ
deriving DecidableEq

/-- A mailbox or webhook side effect performed for one message id. -/
inductive Effect where
  | markRead (id : String)
  | fetchContent (id : String)
  | applyFlag (id : String) (justification : String)
  | webhook (id : String)
deriving DecidableEq

/-- The message id an effect acts on. -/
def Effect.emailId : Effect → String
  | .markRead i => i
  | .fetchContent i => i
  | .applyFlag i _ => i
  | .webhook i => i

/-- The run statistics the handler accumulates. -/
structure Stats where
  processed : Nat := 0
  flagged : Nat := 0
  skipped : Nat := 0
  discarded : Nat := 0
  errors : Nat := 0
deriving DecidableEq

/-- State threaded through the batch loop. -/
structure HState where
  rows : List Row := []
  effects : List Effect := []
  stats : Stats := {}
deriving DecidableEq

instance {ε α : Type} [DecidableEq ε] [DecidableEq α] : DecidableEq (Except ε α) :=
  fun x y =>
    match x, y with
    | .ok a, .ok b =>
      if h : a = b then isTrue (h ▸ rfl) else isFalse (fun he => h (Except.ok.inj he))
    | .error a, .error b =>
      if h : a = b then isTrue (h ▸ rfl) else isFalse (fun he => h (Except.error.inj he))
    | .ok _, .error _ => isFalse (fun he => Except.noConfusion he)
    | .error _, .ok _ => isFalse (fun he => Except.noConfusion he)

/-- The oracle inputs consumed while processing one email: the single
AI completion outcome, plus the fault switches for the two per-email
steps whose rejections reach the per-email catch (the dedup select
and the row inserts; the mailbox calls, the content fetch, the
history query, the AI call and the webhook all swallow their own
errors in the source). -/
structure EmailEnv where
  aiResponse : Except AiError Verdict
  dedupFault : Bool := false
  insertFault : Bool := false
deriving DecidableEq

/-- The net contribution of processing one email: rows inserted,
effects performed, statistic increments, and whether the per-email
body threw (reaching the catch that counts an error). -/
structure Delta where
  rows : List Row := []
  effects : List Effect := []
  dProcessed : Nat := 0
  dFlagged : Nat := 0
  dSkipped : Nat := 0
  dDiscarded : Nat := 0
  threw : Bool := false
deriving DecidableEq

/-- Contribution of a step that threw before doing anything. -/
def throwDelta : Delta := { threw := true }

/-- The auto-skip branch: mark read, count discarded, then insert the
discarded row (the insert is a fault point, after the mark-read and
the counter update have already happened). -/
def autoSkipDelta (env : EmailEnv) (email : Email) (m : SkipMatch) : Delta :=
  if env.insertFault then
    { effects := [Effect.markRead email.id], dDiscarded := 1, threw := true }
  else
    { rows := [{ messageId := email.id, classification := m.classification,
                 status := "discarded", flagged := false,
                 aiReasoning := m.reason, aiConfidence := 1 }],
      effects := [Effect.markRead email.id], dDiscarded := 1 }

/-- The internal-domain branch: mark read, count skipped, insert
nothing, continue. -/
def internalSkipDelta (email : Email) : Delta :=
  { effects := [Effect.markRead email.id], dSkipped := 1 }

/-- The Amazon-notification branch. -/
def amazonDelta (env : EmailEnv) (email : Email) : Delta :=
  if env.insertFault then
    { effects := [Effect.markRead email.id], dDiscarded := 1, threw := true }
  else
    { rows := [{ messageId := email.id, classification := "AMAZON_NOTIFICATION",
                 status := "discarded", flagged := false,
                 aiReasoning := "Auto-skipped Amazon notification - no action needed in email system",
                 aiConfidence := 1 }],
      effects := [Effect.markRead email.id], dDiscarded := 1 }

/-- The system-domain denylist branch. -/
def systemDomainDelta (env : EmailEnv) (email : Email) : Delta :=
  if env.insertFault then
    { effects := [Effect.markRead email.id], dDiscarded := 1, threw := true }
  else
    { rows := [{ messageId := email.id, classification := "SYSTEM_NOTIFICATION",
                 status := "discarded", flagged := false,
                 aiReasoning := "Auto-skipped system domain: " ++ handlerSenderDomain email,
                 aiConfidence := 1 }],
      effects := [Effect.markRead email.id], dDiscarded := 1 }

/-- The common tail of the handler once a verdict exists: map the
label through the flag and skip sets, perform the mailbox action,
insert the ProcessedEmail row (fault point), then fire the webhook
for flagged emails when a webhook URL is configured. -/
def finishClassified (webhookCfg : Bool) (env : EmailEnv) (email : Email)
    (c : Verdict) : Delta :=
  let shouldFlag := CLASSIFICATIONS_TO_FLAG.contains c.classification
  let shouldSkip := CLASSIFICATIONS_TO_SKIP.contains c.classification
  let actionEffects : List Effect :=
    if shouldFlag then
      [Effect.fetchContent email.id,
       Effect.applyFlag email.id
         (if c.reasoning = "" then "Classified as " ++ c.classification else c.reasoning)]
    else if shouldSkip then [Effect.markRead email.id]
    else
      [Effect.fetchContent email.id,
       Effect.applyFlag email.id "Needs manual review - unclear classification"]
  let df : Nat := if shouldFlag then 1 else if shouldSkip then 0 else 1
  let dd : Nat := if shouldFlag then 0 else if shouldSkip then 1 else 0
  if env.insertFault then
    { effects := actionEffects, dFlagged := df, dDiscarded := dd, threw := true }
  else
    { rows := [{ messageId := email.id, classification := c.classification,
                 status := if shouldFlag then "flagged" else "processed",
                 flagged := shouldFlag,
                 aiReasoning := c.reasoning, aiConfidence := c.confidence }],
      effects := actionEffects ++
        (if shouldFlag && webhookCfg then [Effect.webhook email.id] else []),
      dProcessed := 1, dFlagged := df, dDiscarded := dd }

/-- The per-email decision cascade of the handler after the dedup
check, in source order: auto-flag rules, auto-skip rules, the Andre
purchase-order special case, the internal-domain hard skip, the
Amazon detector, the system-domain denylist, then sender history and
the AI classifier.  The learned-pattern stage is hard-coded to null
in the source (the checkLearnedPatterns call is commented out there),
so this cascade has no pattern input. -/
def processEmailDelta (webhookCfg : Bool) (env : EmailEnv) (email : Email) : Delta :=
  match getAutoFlagRule email with
  | some r =>
    finishClassified webhookCfg env email
      { classification := r.classification, confidence := r.confidence.getD 1,
        reasoning := r.reason }
  | none =>
    match getAutoSkipRule email with
    | some m => autoSkipDelta env email m
    | none =>
      if andrePOCase email then
        finishClassified webhookCfg env email
          { classification := "PURCHASE_ORDER_FORWARD", confidence := 1,
            reasoning := "Purchase order from Andre" }
      else if isInternalAlliance email then internalSkipDelta email
      else if isAmazonEmail email then amazonDelta env email
      else if isSystemNotificationDomain (handlerSenderDomain email) then
        systemDomainDelta env email
      else
        finishClassified webhookCfg env email (classifyEmail env.aiResponse)

/-- Whether a message id already has a ProcessedEmail row. -/
def alreadyProcessed (st : HState) (id : String) : Bool :=
  st.rows.any (fun r => r.messageId == id)

/-- Apply the contribution of one email to the run state; a thrown
per-email body reaches the catch that increments the error count. -/
def applyDelta (st : HState) (d : Delta) : HState :=
  { rows := st.rows ++ d.rows,
    effects := st.effects ++ d.effects,
    stats := { processed := st.stats.processed + d.dProcessed,
               flagged := st.stats.flagged + d.dFlagged,
               skipped := st.stats.skipped + d.dSkipped,
               discarded := st.stats.discarded + d.dDiscarded,
               errors := st.stats.errors + (if d.threw then 1 else 0) } }

/-- Process one email: the dedup select (a fault point), then the
already-processed no-op, then the cascade. -/
def processEmail (webhookCfg : Bool) (env : EmailEnv) (st : HState)
    (email : Email) : HState :=
  if env.dedupFault then applyDelta st throwDelta
  else if alreadyProcessed st email.id then st
  else applyDelta st (processEmailDelta webhookCfg env email)

/-- The inner batch loop of the handler: each email is processed
inside its own try, so the loop always advances to the next email. -/
def runBatch (webhookCfg : Bool) (st : HState) :
    List (Email × EmailEnv) → HState
  | [] => st
  | (e, env) :: rest => runBatch webhookCfg (processEmail webhookCfg env st e) rest

/-- State at the start of a run. -/
def initState : HState := {}

/-- The contribution one batch entry makes when its id is not yet in
the store: a dedup fault throws before anything happens, otherwise
the cascade runs. -/
def emailDelta (webhookCfg : Bool) (p : Email × EmailEnv) : Delta :=
  if p.2.dedupFault then throwDelta else processEmailDelta webhookCfg p.2 p.1

/-- Fold a list of contributions into a state. -/
def applyDeltas (st : HState) (ds : List Delta) : HState :=
  ds.foldl applyDelta st

/-- Rows contributed by a list of deltas, in order. -/
def deltasRows : List Delta → List Row
  | [] => []
  | d :: t => d.rows ++ deltasRows t

/-- Effects contributed by a list of deltas, in order. -/
def deltasEffects : List Delta → List Effect
  | [] => []
  | d :: t => d.effects ++ deltasEffects t

/-- Number of thrown per-email bodies in a list of deltas. -/
def deltasThrown : List Delta → Nat
  | [] => 0
  | d :: t => (if d.threw then 1 else 0) + deltasThrown t

/-! Concrete inputs used by the witnesses and counterexamples. -/

/-- A row already present in the store for message id m1. -/
def rowC1 : Row :=
  { messageId := "m1", classification := "QUOTE_REQUEST", status := "flagged",
    flagged := true, aiReasoning := "earlier run", aiConfidence := 1 }

/-- Store state that already contains message id m1. -/
def stC1 : HState := { rows := [rowC1] }

/-- The same message listed again on a later run. -/
def eC1 : Email := { id := "m1", fromAddress := some "alice@example.com", subject := some "re: quote" }

/-- Fault-free oracle for the duplicate message. -/
def envC1 : EmailEnv := { aiResponse := Except.error AiError.transportError }

/-- An external sender matched by no rule, used on the AI path. -/
def eC2 : Email := { id := "m2", fromAddress := some "carol@unknowncorp.com", subject := some "question" }

/-- Oracle whose one AI call fails with an empty completion. -/
def envC2 : EmailEnv := { aiResponse := Except.error AiError.emptyResponse }

/-- An oracle stream whose first completion call fails. -/
def failStream : Nat → Except AiError Verdict := fun _ => Except.error AiError.emptyResponse

/-- The Shopify mailer sender: matches the one auto-flag rule and the
system-domain denylist at the same time. -/
def eC3 : Email := { id := "m3", fromAddress := some "mailer@shopify.com", subject := some "Order update" }

/-- Fault-free oracle for the auto-flag email. -/
def envC3 : EmailEnv := { aiResponse := Except.error AiError.transportError }

/-- The auto-flag rule projection that matches eC3. -/
def rC3 : FlagMatch :=
  { classification := "CUSTOMER_SUPPORT_REQUEST", confidence := some 0.95,
    reason := "Shopify order or fulfillment notification requiring follow-up",
    name := "Shopify Mailer Alerts" }

/-- A verdict whose label is configured in neither taxonomy list. -/
def cC5 : Verdict := { classification := "TOTALLY_NEW_LABEL", confidence := 1, reasoning := "odd" }

/-- An email reaching the common action block. -/
def eC5 : Email := { id := "m5", fromAddress := some "dan@unknowncorp.com", subject := some "hi" }

/-- Fault-free oracle. -/
def envC5 : EmailEnv := { aiResponse := Except.ok cC5 }

/-- External sender matched by no rule, used for the pattern claim. -/
def eC6 : Email := { id := "m6", fromAddress := some "bob@acmechem.com", subject := some "hello there" }

/-- Oracle whose AI call succeeds with a label different from the
learned pattern. -/
def envC6 : EmailEnv :=
  { aiResponse := Except.ok { classification := "GENERAL_INQUIRY", confidence := 0.8, reasoning := "AI past" } }

/-- A learned pattern for the same sender with five occurrences. -/
def patC6 : PatternRow :=
  { patternType := "sender", patternValue := "bob@acmechem.com",
    typicalClassification := "QUOTE_REQUEST", occurrenceCount := 5 }

/-- First email of the witness batch. -/
def e71 : Email := { id := "b1", fromAddress := some "eve@firstcorp.com", subject := some "need help" }

/-- Second email of the witness batch, the one whose processing throws. -/
def e72 : Email := { id := "b2", fromAddress := some "frank@secondcorp.com", subject := some "invoice query" }

/-- Third email of the witness batch. -/
def e73 : Email := { id := "b3", fromAddress := some "user@alliancechemical.com.evil.com", subject := some "hello" }

/-- Fault-free oracle for the first email. -/
def env71 : EmailEnv := { aiResponse := Except.ok { classification := "QUOTE_REQUEST", confidence := 0.9, reasoning := "asks" } }

/-- Oracle whose dedup select rejects, so processing the second email
throws. -/
def env72 : EmailEnv := { aiResponse := Except.error AiError.transportError, dedupFault := true }

/-- Fault-free oracle for the third email. -/
def env73 : EmailEnv := { aiResponse := Except.error AiError.transportError }

/-- Sender whose domain is not the operator domain but whose address
contains the operator marker as a substring. -/
def e8C : Email := { id := "m8", fromAddress := some "user@alliancechemical.com.evil.com", subject := some "hello" }

/-- Fault-free oracle. -/
def env8C : EmailEnv := { aiResponse := Except.error AiError.transportError }

/-- A genuinely internal sender. -/
def e8W : Email := { id := "m9", fromAddress := some "grace@alliancechemical.com", subject := some "minutes" }

/-- Fault-free oracle. -/
def env8W : EmailEnv := { aiResponse := Except.error AiError.transportError }

/-- Sender-level aggregate with three observed emails. -/
def aggC9 : FeedbackAgg := { totalEmails := 3, responseRate := 0.8, avgResponseTime := some 2 }

/-- A verdict carrying a label from the skip set, for the persistence
claim. -/
def cC10 : Verdict := { classification := "MARKETING_PROMOTIONAL", confidence := 0.9, reasoning := "ad" }

/-- An email reaching the common action block. -/
def eC10 : Email := { id := "m10", fromAddress := some "hank@unknowncorp.com", subject := some "hi" }

/-- Fault-free oracle. -/
def envC10 : EmailEnv := { aiResponse := Except.ok cC10 }

/-! Helper lemmas about the branch contributions. -/

theorem finishClassified_threw (w : Bool) (env : EmailEnv) (e : Email) (c : Verdict) :
    (finishClassified w env e c).threw = env.insertFault := by
  by_cases h : env.insertFault <;> simp [finishClassified, h]

theorem autoSkipDelta_threw (env : EmailEnv) (e : Email) (m : SkipMatch) :
    (autoSkipDelta env e m).threw = env.insertFault := by
  by_cases h : env.insertFault <;> simp [autoSkipDelta, h]

theorem amazonDelta_threw (env : EmailEnv) (e : Email) :
    (amazonDelta env e).threw = env.insertFault := by
  by_cases h : env.insertFault <;> simp [amazonDelta, h]

theorem systemDomainDelta_threw (env : EmailEnv) (e : Email) :
    (systemDomainDelta env e).threw = env.insertFault := by
  by_cases h : env.insertFault <;> simp [systemDomainDelta, h]

theorem finishClassified_dSkipped (w : Bool) (env : EmailEnv) (e : Email) (c : Verdict) :
    (finishClassified w env e c).dSkipped = 0 := by
  by_cases h : env.insertFault <;> simp [finishClassified, h]

theorem autoSkipDelta_dSkipped (env : EmailEnv) (e : Email) (m : SkipMatch) :
    (autoSkipDelta env e m).dSkipped = 0 := by
  by_cases h : env.insertFault <;> simp [autoSkipDelta, h]

theorem amazonDelta_dSkipped (env : EmailEnv) (e : Email) :
    (amazonDelta env e).dSkipped = 0 := by
  by_cases h : env.insertFault <;> simp [amazonDelta, h]

theorem systemDomainDelta_dSkipped (env : EmailEnv) (e : Email) :
    (systemDomainDelta env e).dSkipped = 0 := by
  by_cases h : env.insertFault <;> simp [systemDomainDelta, h]

theorem finishClassified_rows_id (w : Bool) (env : EmailEnv) (e : Email) (c : Verdict) :
    ∀ r ∈ (finishClassified w env e c).rows, r.messageId = e.id := by
  intro r hr
  by_cases h : env.insertFault <;> simp [finishClassified, h] at hr
  rw [hr]

theorem autoSkipDelta_rows_id (env : EmailEnv) (e : Email) (m : SkipMatch) :
    ∀ r ∈ (autoSkipDelta env e m).rows, r.messageId = e.id := by
  intro r hr
  by_cases h : env.insertFault <;> simp [autoSkipDelta, h] at hr
  rw [hr]

theorem amazonDelta_rows_id (env : EmailEnv) (e : Email) :
    ∀ r ∈ (amazonDelta env e).rows, r.messageId = e.id := by
  intro r hr
  by_cases h : env.insertFault <;> simp [amazonDelta, h] at hr
  rw [hr]

theorem systemDomainDelta_rows_id (env : EmailEnv) (e : Email) :
    ∀ r ∈ (systemDomainDelta env e).rows, r.messageId = e.id := by
  intro r hr
  by_cases h : env.insertFault <;> simp [systemDomainDelta, h] at hr
  rw [hr]

theorem internalSkipDelta_rows_id (e : Email) :
    ∀ r ∈ (internalSkipDelta e).rows, r.messageId = e.id := by
  intro r hr
  simp [internalSkipDelta] at hr

theorem finishClassified_effects_id (w : Bool) (env : EmailEnv) (e : Email) (c : Verdict) :
    ∀ f ∈ (finishClassified w env e c).effects, f.emailId = e.id := by
  have hall : ((finishClassified w env e c).effects.all (fun f => f.emailId == e.id)) = true := by
    simp only [finishClassified]
    split_ifs <;> simp [Effect.emailId]
  intro f hf
  have hp := List.all_eq_true.mp hall f hf
  exact eq_of_beq hp

theorem autoSkipDelta_effects_id (env : EmailEnv) (e : Email) (m : SkipMatch) :
    ∀ f ∈ (autoSkipDelta env e m).effects, f.emailId = e.id := by
  intro f hf
  by_cases h : env.insertFault <;> simp [autoSkipDelta, h] at hf <;> simp [hf, Effect.emailId]

theorem amazonDelta_effects_id (env : EmailEnv) (e : Email) :
    ∀ f ∈ (amazonDelta env e).effects, f.emailId = e.id := by
  intro f hf
  by_cases h : env.insertFault <;> simp [amazonDelta, h] at hf <;> simp [hf, Effect.emailId]

theorem systemDomainDelta_effects_id (env : EmailEnv) (e : Email) :
    ∀ f ∈ (systemDomainDelta env e).effects, f.emailId = e.id := by
  intro f hf
  by_cases h : env.insertFault <;> simp [systemDomainDelta, h] at hf <;> simp [hf, Effect.emailId]

theorem internalSkipDelta_effects_id (e : Email) :
    ∀ f ∈ (internalSkipDelta e).effects, f.emailId = e.id := by
  intro f hf
  simp [internalSkipDelta] at hf
  simp [hf, Effect.emailId]

theorem processEmailDelta_rows_id (w : Bool) (env : EmailEnv) (e : Email) :
    ∀ r ∈ (processEmailDelta w env e).rows, r.messageId = e.id := by
  intro r hr
  unfold processEmailDelta at hr
  split at hr
  · exact finishClassified_rows_id _ _ _ _ r hr
  · split at hr
    · exact autoSkipDelta_rows_id _ _ _ r hr
    · split at hr
      · exact finishClassified_rows_id _ _ _ _ r hr
      · split at hr
        · exact internalSkipDelta_rows_id _ r hr
        · split at hr
          · exact amazonDelta_rows_id _ _ r hr
          · split at hr
            · exact systemDomainDelta_rows_id _ _ r hr
            · exact finishClassified_rows_id _ _ _ _ r hr

theorem processEmailDelta_effects_id (w : Bool) (env : EmailEnv) (e : Email) :
    ∀ f ∈ (processEmailDelta w env e).effects, f.emailId = e.id := by
  intro f hf
  unfold processEmailDelta at hf
  split at hf
  · exact finishClassified_effects_id _ _ _ _ f hf
  · split at hf
    · exact autoSkipDelta_effects_id _ _ _ f hf
    · split at hf
      · exact finishClassified_effects_id _ _ _ _ f hf
      · split at hf
        · exact internalSkipDelta_effects_id _ f hf
        · split at hf
          · exact amazonDelta_effects_id _ _ f hf
          · split at hf
            · exact systemDomainDelta_effects_id _ _ f hf
            · exact finishClassified_effects_id _ _ _ _ f hf

theorem processEmailDelta_threw (w : Bool) (env : EmailEnv) (e : Email)
    (h : env.insertFault = false) : (processEmailDelta w env e).threw = false := by
  unfold processEmailDelta
  split
  · rw [finishClassified_threw, h]
  · split
    · rw [autoSkipDelta_threw, h]
    · split
      · rw [finishClassified_threw, h]
      · split
        · rfl
        · split
          · rw [amazonDelta_threw, h]
          · split
            · rw [systemDomainDelta_threw, h]
            · rw [finishClassified_threw, h]

theorem emailDelta_rows_id (w : Bool) (p : Email × EmailEnv) :
    ∀ r ∈ (emailDelta w p).rows, r.messageId = p.1.id := by
  intro r hr
  unfold emailDelta at hr
  split at hr
  · simp [throwDelta] at hr
  · exact processEmailDelta_rows_id _ _ _ r hr

theorem emailDelta_effects_id (w : Bool) (p : Email × EmailEnv) :
    ∀ f ∈ (emailDelta w p).effects, f.emailId = p.1.id := by
  intro f hf
  unfold emailDelta at hf
  split at hf
  · simp [throwDelta] at hf
  · exact processEmailDelta_effects_id _ _ _ f hf

theorem emailDelta_threw_false (w : Bool) (p : Email × EmailEnv)
    (h1 : p.2.dedupFault = false) (h2 : p.2.insertFault = false) :
    (emailDelta w p).threw = false := by
  unfold emailDelta
  rw [h1]
  simp [processEmailDelta_threw w p.2 p.1 h2]

/-! Lemmas about the batch loop. -/

theorem processEmail_hit (w : Bool) (env : EmailEnv) (st : HState) (e : Email)
    (hdup : alreadyProcessed st e.id = true) (hdf : env.dedupFault = false) :
    processEmail w env st e = st := by
  simp [processEmail, hdf, hdup]

theorem processEmail_miss (w : Bool) (env : EmailEnv) (st : HState) (e : Email)
    (h : alreadyProcessed st e.id = false) :
    processEmail w env st e = applyDelta st (emailDelta w (e, env)) := by
  unfold processEmail emailDelta
  by_cases hd : env.dedupFault <;> simp [hd, h]

theorem applyDeltas_cons (st : HState) (d : Delta) (ds : List Delta) :
    applyDeltas st (d :: ds) = applyDeltas (applyDelta st d) ds := rfl

theorem applyDeltas_rows : ∀ (ds : List Delta) (st : HState),
    (applyDeltas st ds).rows = st.rows ++ deltasRows ds := by
  intro ds
  induction ds with
  | nil => intro st; simp [applyDeltas, deltasRows]
  | cons d t ih =>
    intro st
    rw [applyDeltas_cons, ih, deltasRows]
    simp [applyDelta, List.append_assoc]

theorem applyDeltas_effects : ∀ (ds : List Delta) (st : HState),
    (applyDeltas st ds).effects = st.effects ++ deltasEffects ds := by
  intro ds
  induction ds with
  | nil => intro st; simp [applyDeltas, deltasEffects]
  | cons d t ih =>
    intro st
    rw [applyDeltas_cons, ih, deltasEffects]
    simp [applyDelta, List.append_assoc]

theorem applyDeltas_errors : ∀ (ds : List Delta) (st : HState),
    (applyDeltas st ds).stats.errors = st.stats.errors + deltasThrown ds := by
  intro ds
  induction ds with
  | nil => intro st; simp [applyDeltas, deltasThrown]
  | cons d t ih =>
    intro st
    rw [applyDeltas_cons, ih, deltasThrown]
    simp [applyDelta]
    omega

theorem deltasThrown_append (a b : List Delta) :
    deltasThrown (a ++ b) = deltasThrown a + deltasThrown b := by
  induction a with
  | nil => simp [deltasThrown]
  | cons d t ih => simp [deltasThrown, ih]; omega

theorem deltasThrown_zero (ds : List Delta) (h : ∀ d ∈ ds, d.threw = false) :
    deltasThrown ds = 0 := by
  induction ds with
  | nil => rfl
  | cons d t ih =>
    rw [deltasThrown, h d (List.mem_cons_self d t), ih (fun d' hd' => h d' (List.mem_cons_of_mem _ hd'))]
    simp

theorem alreadyProcessed_applyDelta_of_ne (st : HState) (d : Delta) (i j : String)
    (hown : ∀ r ∈ d.rows, r.messageId = j) (hne : i ≠ j) :
    alreadyProcessed (applyDelta st d) i = alreadyProcessed st i := by
  have hz : d.rows.any (fun r => r.messageId == i) = false := by
    rw [List.any_eq_false]
    intro r hr
    rw [hown r hr]
    simp
    exact fun hEq => hne hEq.symm
  simp [alreadyProcessed, applyDelta, List.any_append, hz]

theorem runBatch_eq (w : Bool) : ∀ (batch : List (Email × EmailEnv)) (st : HState),
    (∀ p ∈ batch, alreadyProcessed st p.1.id = false) →
    (batch.map (fun p => p.1.id)).Nodup →
    runBatch w st batch = applyDeltas st (batch.map (emailDelta w)) := by
  intro batch
  induction batch with
  | nil => intro st _ _; rfl
  | cons q t ih =>
    intro st hfresh hnd
    obtain ⟨e, env⟩ := q
    obtain ⟨h1, h2⟩ := List.nodup_cons.mp hnd
    rw [runBatch, List.map_cons, applyDeltas_cons,
      processEmail_miss w env st e (hfresh _ (List.mem_cons_self _ _))]
    apply ih
    · intro p hp
      have hne : p.1.id ≠ e.id := by
        intro hEq
        apply h1
        show e.id ∈ List.map (fun p => p.1.id) t
        rw [← hEq]
        exact List.mem_map_of_mem _ hp
      rw [alreadyProcessed_applyDelta_of_ne st _ p.1.id e.id (emailDelta_rows_id w (e, env)) hne]
      exact hfresh p (List.mem_cons_of_mem _ hp)
    · exact h2

theorem rows_filter_not_mem (w : Bool) : ∀ (l : List (Email × EmailEnv)) (i : String),
    (∀ q ∈ l, q.1.id ≠ i) →
    (deltasRows (l.map (emailDelta w))).filter (fun r => r.messageId == i) = [] := by
  intro l
  induction l with
  | nil => intro i _; rfl
  | cons q t ih =>
    intro i hni
    rw [List.map_cons,
      show deltasRows (emailDelta w q :: t.map (emailDelta w)) =
        (emailDelta w q).rows ++ deltasRows (t.map (emailDelta w)) from rfl,
      List.filter_append, ih i (fun q' hq' => hni q' (List.mem_cons_of_mem _ hq'))]
    rw [List.append_nil, List.filter_eq_nil_iff]
    intro r hr
    rw [emailDelta_rows_id w q r hr]
    simp
    exact hni q (List.mem_cons_self _ _)

theorem rows_filter_of_mem (w : Bool) : ∀ (l : List (Email × EmailEnv)) (p : Email × EmailEnv),
    p ∈ l → (l.map (fun q => q.1.id)).Nodup →
    (deltasRows (l.map (emailDelta w))).filter (fun r => r.messageId == p.1.id) =
      (emailDelta w p).rows := by
  intro l
  induction l with
  | nil => intro p hp; cases hp
  | cons q t ih =>
    intro p hp hnd
    obtain ⟨h1, h2⟩ := List.nodup_cons.mp hnd
    rw [List.map_cons,
      show deltasRows (emailDelta w q :: t.map (emailDelta w)) =
        (emailDelta w q).rows ++ deltasRows (t.map (emailDelta w)) from rfl,
      List.filter_append]
    rcases List.mem_cons.mp hp with hq | hpt
    · subst hq
      have hhead : (emailDelta w p).rows.filter (fun r => r.messageId == p.1.id) =
          (emailDelta w p).rows := by
        rw [List.filter_eq_self]
        intro r hr
        rw [emailDelta_rows_id w p r hr]
        simp
      have htail : (deltasRows (t.map (emailDelta w))).filter (fun r => r.messageId == p.1.id) = [] := by
        apply rows_filter_not_mem
        intro q' hq' hEq
        apply h1
        show p.1.id ∈ List.map (fun q => q.1.id) t
        rw [← hEq]
        exact List.mem_map_of_mem _ hq'
      rw [hhead, htail, List.append_nil]
    · have hne : q.1.id ≠ p.1.id := by
        intro hEq
        apply h1
        show q.1.id ∈ List.map (fun q => q.1.id) t
        rw [hEq]
        exact List.mem_map_of_mem _ hpt
      have hhead : (emailDelta w q).rows.filter (fun r => r.messageId == p.1.id) = [] := by
        rw [List.filter_eq_nil_iff]
        intro r hr
        rw [emailDelta_rows_id w q r hr]
        simp
        exact fun hEq => hne hEq
      rw [hhead, List.nil_append]
      exact ih p hpt h2

theorem effects_filter_not_mem (w : Bool) : ∀ (l : List (Email × EmailEnv)) (i : String),
    (∀ q ∈ l, q.1.id ≠ i) →
    (deltasEffects (l.map (emailDelta w))).filter (fun f => f.emailId == i) = [] := by
  intro l
  induction l with
  | nil => intro i _; rfl
  | cons q t ih =>
    intro i hni
    rw [List.map_cons,
      show deltasEffects (emailDelta w q :: t.map (emailDelta w)) =
        (emailDelta w q).effects ++ deltasEffects (t.map (emailDelta w)) from rfl,
      List.filter_append, ih i (fun q' hq' => hni q' (List.mem_cons_of_mem _ hq'))]
    rw [List.append_nil, List.filter_eq_nil_iff]
    intro f hf
    rw [emailDelta_effects_id w q f hf]
    simp
    exact hni q (List.mem_cons_self _ _)

theorem effects_filter_of_mem (w : Bool) : ∀ (l : List (Email × EmailEnv)) (p : Email × EmailEnv),
    p ∈ l → (l.map (fun q => q.1.id)).Nodup →
    (deltasEffects (l.map (emailDelta w))).filter (fun f => f.emailId == p.1.id) =
      (emailDelta w p).effects := by
  intro l
  induction l with
  | nil => intro p hp; cases hp
  | cons q t ih =>
    intro p hp hnd
    obtain ⟨h1, h2⟩ := List.nodup_cons.mp hnd
    rw [List.map_cons,
      show deltasEffects (emailDelta w q :: t.map (emailDelta w)) =
        (emailDelta w q).effects ++ deltasEffects (t.map (emailDelta w)) from rfl,
      List.filter_append]
    rcases List.mem_cons.mp hp with hq | hpt
    · subst hq
      have hhead : (emailDelta w p).effects.filter (fun f => f.emailId == p.1.id) =
          (emailDelta w p).effects := by
        rw [List.filter_eq_self]
        intro f hf
        rw [emailDelta_effects_id w p f hf]
        simp
      have htail : (deltasEffects (t.map (emailDelta w))).filter (fun f => f.emailId == p.1.id) = [] := by
        apply effects_filter_not_mem
        intro q' hq' hEq
        apply h1
        show p.1.id ∈ List.map (fun q => q.1.id) t
        rw [← hEq]
        exact List.mem_map_of_mem _ hq'
      rw [hhead, htail, List.append_nil]
    · have hne : q.1.id ≠ p.1.id := by
        intro hEq
        apply h1
        show q.1.id ∈ List.map (fun q => q.1.id) t
        rw [hEq]
        exact List.mem_map_of_mem _ hpt
      have hhead : (emailDelta w q).effects.filter (fun f => f.emailId == p.1.id) = [] := by
        rw [List.filter_eq_nil_iff]
        intro f hf
        rw [emailDelta_effects_id w q f hf]
        simp
        exact fun hEq => hne hEq
      rw [hhead, List.nil_append]
      exact ih p hpt h2

/-! Remaining helper lemmas. -/

theorem find?_singleton {α : Type} (p : α → Bool) (a : α) :
    [a].find? p = if p a then some a else none := by
  cases hp : p a <;> simp [List.find?, hp]

theorem getAutoFlagRule_cases (e : Email) :
    getAutoFlagRule e = none ∨ getAutoFlagRule e = some rC3 := by
  simp only [getAutoFlagRule]
  split
  · exact Or.inl rfl
  · rw [AUTO_FLAG_RULES, find?_singleton]
    repeat' split
    all_goals first | exact Or.inl rfl | exact Or.inr rfl

theorem getAutoFlagRule_char (e : Email) (r : FlagMatch)
    (h : getAutoFlagRule e = some r) : r = rC3 := by
  rcases getAutoFlagRule_cases e with hc | hc
  · rw [hc] at h
    exact Option.noConfusion h
  · rw [hc] at h
    exact (Option.some.inj h).symm

/-! Claim theorems and witnesses. -/

/-- Claim C1: for every mailbox message whose message id is already
present in the persistence store when the orchestrator encounters it,
processing that message is a no-op: the state is unchanged, so no
second ProcessedEmail row is created and no mailbox or webhook side
effect is performed for that id. -/
theorem C1_already_processed_noop (w : Bool) (env : EmailEnv) (st : HState) (email : Email)
    (hdup : alreadyProcessed st email.id = true) (hdf : env.dedupFault = false) :
    processEmail w env st email = st := by
  simp [processEmail, hdf, hdup]

/-- Witness for C1: a store already holding message id m1 is untouched
when the same message is listed again. -/
theorem C1_witness : processEmail true envC1 stC1 eC1 = stC1 :=
  C1_already_processed_noop true envC1 stC1 eC1 (by decide) rfl

/-- Claim C2 counterexample: the fallback verdict reasoning in the code
is the string AI classification failed, defaulting to manual review,
not the string the claim quotes (which lacks the AI prefix and adds a
final period), so the verdict is not exactly the claimed one. -/
theorem C2_fallback_cex :
    (classifyEmail (Except.error AiError.transportError)).reasoning ≠
      "classification failed, defaulting to manual review." ∧
    (classifyEmail (Except.error AiError.transportError)).reasoning =
      "AI classification failed, defaulting to manual review" := by
  exact ⟨by decide, rfl⟩

/-- Claim C2 (amended): on every AI-call failure mode classifyEmail
does not retry (only the first completion-call outcome matters) and
returns exactly the fixed fallback verdict with classification
CUSTOMER_SUPPORT_REQUEST, confidence 0.5 and reasoning AI
classification failed, defaulting to manual review; the orchestrator
then flags that email and never discards it. -/
theorem C2_fallback_amended :
    (∀ err : AiError, classifyEmail (Except.error err) = fallbackVerdict) ∧
    (∀ o o' : Nat → Except AiError Verdict, o 0 = o' 0 →
      classifyEmailWith o = classifyEmailWith o') ∧
    (∀ (w : Bool) (env : EmailEnv) (email : Email) (err : AiError),
      getAutoFlagRule email = none → getAutoSkipRule email = none →
      andrePOCase email = false → isInternalAlliance email = false →
      isAmazonEmail email = false →
      isSystemNotificationDomain (handlerSenderDomain email) = false →
      env.insertFault = false → env.aiResponse = Except.error err →
      (processEmailDelta w env email).rows =
        [{ messageId := email.id, classification := "CUSTOMER_SUPPORT_REQUEST",
           status := "flagged", flagged := true,
           aiReasoning := fallbackVerdict.reasoning,
           aiConfidence := fallbackVerdict.confidence }] ∧
      (processEmailDelta w env email).dFlagged = 1 ∧
      (processEmailDelta w env email).dDiscarded = 0 ∧
      Effect.applyFlag email.id fallbackVerdict.reasoning ∈ (processEmailDelta w env email).effects ∧
      Effect.markRead email.id ∉ (processEmailDelta w env email).effects) := by
  refine ⟨fun err => rfl, fun o o' h => by unfold classifyEmailWith; rw [h], ?_⟩
  intro w env email err hAF hAS hPO hInt hAmz hSys hIns hAi
  have hc : classifyEmail env.aiResponse = fallbackVerdict := by rw [hAi]; rfl
  have hflag : fallbackVerdict.classification ∈ CLASSIFICATIONS_TO_FLAG := by decide
  have hskip : fallbackVerdict.classification ∉ CLASSIFICATIONS_TO_SKIP := by decide
  have hres : ¬ fallbackVerdict.reasoning = "" := by decide
  unfold processEmailDelta
  simp only [hAF, hAS, hPO, hInt, hAmz, hSys, hc]
  refine ⟨?_, ?_, ?_, ?_, ?_⟩
  · simp [finishClassified, hIns, hflag]
    rfl
  · simp [finishClassified, hIns, hflag]
  · simp [finishClassified, hIns, hflag]
  · simp [finishClassified, hIns, hflag, hres]
  · cases w <;> simp [finishClassified, hIns, hflag, hres]

/-- Witness for C2: a rule-free external email whose one AI call
returns an empty completion is classified by the fallback verdict and
flagged. -/
theorem C2_witness :
    classifyEmail (Except.error AiError.transportError) = fallbackVerdict ∧
    ((processEmailDelta true envC2 eC2).rows =
      [{ messageId := eC2.id, classification := "CUSTOMER_SUPPORT_REQUEST",
         status := "flagged", flagged := true,
         aiReasoning := fallbackVerdict.reasoning,
         aiConfidence := fallbackVerdict.confidence }] ∧
     (processEmailDelta true envC2 eC2).dFlagged = 1 ∧
     (processEmailDelta true envC2 eC2).dDiscarded = 0 ∧
     Effect.applyFlag eC2.id fallbackVerdict.reasoning ∈ (processEmailDelta true envC2 eC2).effects ∧
     Effect.markRead eC2.id ∉ (processEmailDelta true envC2 eC2).effects) :=
  ⟨C2_fallback_amended.1 AiError.transportError,
   C2_fallback_amended.2.2 true envC2 eC2 AiError.emptyResponse (by decide) (by decide)
     (by decide) (by decide) (by decide) (by decide) rfl rfl⟩

/-- Claim C3: an email matching both an auto-flag rule and a
system-domain denylist entry is flagged with the auto-flag rule
classification; the system-domain discard path is never taken, because
the cascade evaluates the auto-flag table first and short-circuits. -/
theorem C3_autoflag_precedence (w : Bool) (env : EmailEnv) (email : Email) (r : FlagMatch)
    (hr : getAutoFlagRule email = some r)
    (hsys : isSystemNotificationDomain (handlerSenderDomain email) = true)
    (hif : env.insertFault = false) :
    (processEmailDelta w env email).rows =
      [{ messageId := email.id, classification := r.classification,
         status := "flagged", flagged := true,
         aiReasoning := r.reason, aiConfidence := r.confidence.getD 1 }] ∧
    r.classification = "CUSTOMER_SUPPORT_REQUEST" ∧
    (processEmailDelta w env email).dFlagged = 1 ∧
    (processEmailDelta w env email).dDiscarded = 0 ∧
    (∀ row ∈ (processEmailDelta w env email).rows, row.status ≠ "discarded") ∧
    Effect.markRead email.id ∉ (processEmailDelta w env email).effects := by
  have hrc := getAutoFlagRule_char email r hr
  subst hrc
  have hflag : rC3.classification ∈ CLASSIFICATIONS_TO_FLAG := by decide
  have hres : ¬ rC3.reason = "" := by decide
  unfold processEmailDelta
  simp only [hr]
  refine ⟨?_, by decide, ?_, ?_, ?_, ?_⟩
  · simp [finishClassified, hif, hflag]
  · simp [finishClassified, hif, hflag]
  · simp [finishClassified, hif, hflag]
  · simp [finishClassified, hif, hflag]
  · cases w <;> simp [finishClassified, hif, hflag, hres]

/-- Witness for C3: the Shopify mailer address matches the auto-flag
rule and the shopify.com denylist entry, and the run flags it. -/
theorem C3_witness :
    (processEmailDelta true envC3 eC3).rows =
      [{ messageId := eC3.id, classification := rC3.classification,
         status := "flagged", flagged := true,
         aiReasoning := rC3.reason, aiConfidence := rC3.confidence.getD 1 }] ∧
    rC3.classification = "CUSTOMER_SUPPORT_REQUEST" ∧
    (processEmailDelta true envC3 eC3).dFlagged = 1 ∧
    (processEmailDelta true envC3 eC3).dDiscarded = 0 ∧
    (∀ row ∈ (processEmailDelta true envC3 eC3).rows, row.status ≠ "discarded") ∧
    Effect.markRead eC3.id ∉ (processEmailDelta true envC3 eC3).effects :=
  C3_autoflag_precedence true envC3 eC3 rC3 rfl (by decide) rfl

/-- Claim C4 counterexample: the claim characterizes the matcher as
matching exactly when D equals C or D ends with a dot followed by C;
at D and C both empty that characterization says match (D equals C)
but the matcher reports false because of its falsy-argument guard. -/
theorem C4_domain_cex :
    matchesDomain "" "" ≠ specDomainMatches "" "" ∧
    matchesDomain "" "" = false ∧ specDomainMatches "" "" = true := by
  exact ⟨by decide, by decide, by decide⟩

/-- Claim C4 (amended): for nonempty sender domain D and nonempty
configured domain C the matcher reports a match exactly when D equals
C or D ends with a dot followed by C; when either string is empty it
reports no match; in particular evilshopify.com and notshopify.com do
not match shopify.com while mail.shopify.com does. -/
theorem C4_domain_amended :
    (∀ d c : String, d ≠ "" → c ≠ "" → matchesDomain d c = specDomainMatches d c) ∧
    (∀ d c : String, d = "" ∨ c = "" → matchesDomain d c = false) ∧
    matchesDomain "evilshopify.com" "shopify.com" = false ∧
    matchesDomain "notshopify.com" "shopify.com" = false ∧
    matchesDomain "mail.shopify.com" "shopify.com" = true := by
  refine ⟨?_, ?_, by decide, by decide, by decide⟩
  · intro d c hd hc
    have hcond : ¬(d = "" ∨ c = "") := by
      rintro (h | h)
      · exact hd h
      · exact hc h
    unfold matchesDomain specDomainMatches
    rw [if_neg hcond]
  · intro d c h
    unfold matchesDomain
    rw [if_pos h]

/-- Witness for C4: the subdomain example evaluates through the
amended equivalence. -/
theorem C4_witness :
    matchesDomain "mail.shopify.com" "shopify.com" =
      specDomainMatches "mail.shopify.com" "shopify.com" :=
  C4_domain_amended.1 "mail.shopify.com" "shopify.com" (by decide) (by decide)

/-- Claim C5: an email whose final classification label is in neither
the flag set nor the skip set is flagged: the mailbox flag is applied
with the manual-review justification, the flagged counter increments,
nothing is discarded, and the persisted row is not a discard. -/
theorem C5_unknown_label_flagged (w : Bool) (env : EmailEnv) (email : Email) (c : Verdict)
    (hF : c.classification ∉ CLASSIFICATIONS_TO_FLAG)
    (hS : c.classification ∉ CLASSIFICATIONS_TO_SKIP)
    (hif : env.insertFault = false) :
    (finishClassified w env email c).effects =
      [Effect.fetchContent email.id,
       Effect.applyFlag email.id "Needs manual review - unclear classification"] ∧
    (finishClassified w env email c).dFlagged = 1 ∧
    (finishClassified w env email c).dDiscarded = 0 ∧
    (∀ row ∈ (finishClassified w env email c).rows,
      row.status = "processed" ∧ row.status ≠ "discarded") := by
  refine ⟨?_, ?_, ?_, ?_⟩ <;> simp [finishClassified, hF, hS, hif]

/-- Witness for C5: a label configured in neither taxonomy yields the
flag action. -/
theorem C5_witness :
    (finishClassified true envC5 eC5 cC5).effects =
      [Effect.fetchContent eC5.id,
       Effect.applyFlag eC5.id "Needs manual review - unclear classification"] ∧
    (finishClassified true envC5 eC5 cC5).dFlagged = 1 ∧
    (finishClassified true envC5 eC5 cC5).dDiscarded = 0 ∧
    (∀ row ∈ (finishClassified true envC5 eC5 cC5).rows,
      row.status = "processed" ∧ row.status ≠ "discarded") :=
  C5_unknown_label_flagged true envC5 eC5 cC5 (by decide) (by decide) rfl

theorem senderPriority_spec (r : ℚ) :
    ((senderPriority r = "high") ↔ (0.7 : ℚ) < r) ∧
    ((senderPriority r = "low") ↔ r < (0.2 : ℚ)) ∧
    ((senderPriority r = "medium") ↔ ((0.2 : ℚ) ≤ r ∧ r ≤ (0.7 : ℚ))) := by
  unfold senderPriority
  split_ifs with h1 h2
  · refine ⟨⟨fun _ => h1, fun _ => rfl⟩, ⟨?_, ?_⟩, ⟨?_, ?_⟩⟩
    · intro h; exact absurd h (by decide)
    · intro hlt; exfalso; linarith
    · intro h; exact absurd h (by decide)
    · rintro ⟨_, hb⟩; exfalso; linarith
  · refine ⟨⟨?_, ?_⟩, ⟨fun _ => h2, fun _ => rfl⟩, ⟨?_, ?_⟩⟩
    · intro h; exact absurd h (by decide)
    · intro hgt; exact absurd hgt h1
    · intro h; exact absurd h (by decide)
    · rintro ⟨ha, _⟩; exfalso; linarith
  · refine ⟨⟨?_, ?_⟩, ⟨?_, ?_⟩, ⟨?_, ?_⟩⟩
    · intro h; exact absurd h (by decide)
    · intro hgt; exact absurd hgt h1
    · intro h; exact absurd h (by decide)
    · intro hlt; exact absurd hlt h2
    · intro _; exact ⟨le_of_not_lt h2, le_of_not_lt h1⟩
    · intro _; rfl

theorem domainPriority_spec (r : ℚ) :
    ((domainPriority r = "high") ↔ (0.6 : ℚ) < r) ∧
    ((domainPriority r = "low") ↔ r < (0.3 : ℚ)) ∧
    ((domainPriority r = "medium") ↔ ((0.3 : ℚ) ≤ r ∧ r ≤ (0.6 : ℚ))) := by
  unfold domainPriority
  split_ifs with h1 h2
  · refine ⟨⟨fun _ => h1, fun _ => rfl⟩, ⟨?_, ?_⟩, ⟨?_, ?_⟩⟩
    · intro h; exact absurd h (by decide)
    · intro hlt; exfalso; linarith
    · intro h; exact absurd h (by decide)
    · rintro ⟨_, hb⟩; exfalso; linarith
  · refine ⟨⟨?_, ?_⟩, ⟨fun _ => h2, fun _ => rfl⟩, ⟨?_, ?_⟩⟩
    · intro h; exact absurd h (by decide)
    · intro hgt; exact absurd hgt h1
    · intro h; exact absurd h (by decide)
    · rintro ⟨ha, _⟩; exfalso; linarith
  · refine ⟨⟨?_, ?_⟩, ⟨?_, ?_⟩, ⟨?_, ?_⟩⟩
    · intro h; exact absurd h (by decide)
    · intro hgt; exact absurd hgt h1
    · intro h; exact absurd h (by decide)
    · intro hlt; exact absurd hlt h2
    · intro _; exact ⟨le_of_not_lt h2, le_of_not_lt h1⟩
    · intro _; rfl

/-- Claim C6 counterexample: a learned sender pattern with five
occurrences exists and checkLearnedPatterns would return its
classification, yet the orchestrator classifies the same email by the
AI call, because the handler hard-codes the learned pattern to null
(the checkLearnedPatterns call is commented out in the source). -/
theorem C6_pattern_cex :
    checkLearnedPatterns eC6 [patC6] =
      some { classification := "QUOTE_REQUEST", shouldFlag := true,
             confidence := min 0.9 (0.6 + ((5 : ℕ) : ℚ) * 0.05),
             reasoning := "Based on 5 previous emails from this sender" } ∧
    (processEmailDelta true envC6 eC6).rows.map Row.classification = ["GENERAL_INQUIRY"] := by
  exact ⟨rfl, by decide⟩

/-- Claim C6 (amended): checkLearnedPatterns adopts the top pattern
classification when its occurrence count is at least 3, with
confidence min(0.9, 0.6 + 0.05 times the count), and returns null
below the threshold; but the orchestrator never consults it — its
learned-pattern stage is hard-coded to null, so every email no rule
matched is always classified by the sender-history plus AI path. -/
theorem C6_pattern_amended :
    (∀ (email : Email) (p : PatternRow) (rest : List PatternRow),
      strToLower (orEmpty email.fromAddress) ≠ "" → 3 ≤ p.occurrenceCount →
      checkLearnedPatterns email (p :: rest) =
        some { classification := p.typicalClassification,
               shouldFlag := CLASSIFICATIONS_TO_FLAG.contains p.typicalClassification,
               confidence := min 0.9 (0.6 + (p.occurrenceCount : ℚ) * 0.05),
               reasoning := "Based on " ++ toString p.occurrenceCount ++
                 " previous emails from this " ++ p.patternType }) ∧
    (∀ (email : Email) (p : PatternRow) (rest : List PatternRow),
      p.occurrenceCount < 3 → checkLearnedPatterns email (p :: rest) = none) ∧
    (∀ email : Email, checkLearnedPatterns email [] = none) ∧
    (∀ (w : Bool) (env : EmailEnv) (email : Email),
      getAutoFlagRule email = none → getAutoSkipRule email = none →
      andrePOCase email = false → isInternalAlliance email = false →
      isAmazonEmail email = false →
      isSystemNotificationDomain (handlerSenderDomain email) = false →
      processEmailDelta w env email =
        finishClassified w env email (classifyEmail env.aiResponse)) := by
  refine ⟨?_, ?_, ?_, ?_⟩
  · intro email p rest hse h3
    simp [checkLearnedPatterns, hse, h3]
  · intro email p rest h3
    unfold checkLearnedPatterns
    split
    · rfl
    · simp [show ¬ 3 ≤ p.occurrenceCount by omega]
  · intro email
    unfold checkLearnedPatterns
    split <;> rfl
  · intro w env email hAF hAS hPO hInt hAmz hSys
    unfold processEmailDelta
    simp [hAF, hAS, hPO, hInt, hAmz, hSys]

/-- Witness for C6: the five-occurrence pattern evaluates through the
amended characterization. -/
theorem C6_witness :
    checkLearnedPatterns eC6 [patC6] =
      some { classification := patC6.typicalClassification,
             shouldFlag := CLASSIFICATIONS_TO_FLAG.contains patC6.typicalClassification,
             confidence := min 0.9 (0.6 + (patC6.occurrenceCount : ℚ) * 0.05),
             reasoning := "Based on " ++ toString patC6.occurrenceCount ++
               " previous emails from this " ++ patC6.patternType } :=
  C6_pattern_amended.1 eC6 patC6 [] (by decide) (by decide)

/-- Claim C7: in a batch whose message ids are distinct, if processing
exactly one email throws (its dedup select or insert rejects) while
every other email is fault-free, then the run error count is exactly
one and every other email keeps its normal outcome: the rows and the
side effects recorded for its id equal exactly the contribution its
own cascade dictates. -/
theorem C7_batch_isolation (w : Bool) (pre post : List (Email × EmailEnv))
    (ek : Email) (envk : EmailEnv)
    (hnd : ((pre ++ (ek, envk) :: post).map (fun p => p.1.id)).Nodup)
    (hthrew : (emailDelta w (ek, envk)).threw = true)
    (hclean : ∀ p ∈ pre ++ post, p.2.dedupFault = false ∧ p.2.insertFault = false) :
    (runBatch w initState (pre ++ (ek, envk) :: post)).stats.errors = 1 ∧
    ∀ p ∈ pre ++ post,
      (runBatch w initState (pre ++ (ek, envk) :: post)).rows.filter
        (fun r => r.messageId == p.1.id) = (processEmailDelta w p.2 p.1).rows ∧
      (runBatch w initState (pre ++ (ek, envk) :: post)).effects.filter
        (fun f => f.emailId == p.1.id) = (processEmailDelta w p.2 p.1).effects := by
  have hfresh : ∀ p ∈ pre ++ (ek, envk) :: post, alreadyProcessed initState p.1.id = false :=
    fun p _ => rfl
  have hrb := runBatch_eq w (pre ++ (ek, envk) :: post) initState hfresh hnd
  constructor
  · rw [hrb, applyDeltas_errors]
    have hpre : ∀ d ∈ pre.map (emailDelta w), d.threw = false := by
      intro d hd
      obtain ⟨p, hp, rfl⟩ := List.mem_map.mp hd
      obtain ⟨h1, h2⟩ := hclean p (List.mem_append_left _ hp)
      exact emailDelta_threw_false w p h1 h2
    have hpost : ∀ d ∈ post.map (emailDelta w), d.threw = false := by
      intro d hd
      obtain ⟨p, hp, rfl⟩ := List.mem_map.mp hd
      obtain ⟨h1, h2⟩ := hclean p (List.mem_append_right _ hp)
      exact emailDelta_threw_false w p h1 h2
    rw [List.map_append, List.map_cons, deltasThrown_append,
      deltasThrown_zero _ hpre]
    rw [show deltasThrown (emailDelta w (ek, envk) :: post.map (emailDelta w)) =
      (if (emailDelta w (ek, envk)).threw then 1 else 0) +
        deltasThrown (post.map (emailDelta w)) from rfl]
    rw [deltasThrown_zero _ hpost, hthrew]
    rfl
  · intro p hp
    have hpfull : p ∈ pre ++ (ek, envk) :: post := by
      rcases List.mem_append.mp hp with h | h
      · exact List.mem_append_left _ h
      · exact List.mem_append_right _ (List.mem_cons_of_mem _ h)
    obtain ⟨hd1, hd2⟩ := hclean p hp
    have hde : emailDelta w p = processEmailDelta w p.2 p.1 := by
      unfold emailDelta
      simp [hd1]
    constructor
    · rw [hrb, applyDeltas_rows, show initState.rows = [] from rfl, List.nil_append,
        rows_filter_of_mem w _ p hpfull hnd, hde]
    · rw [hrb, applyDeltas_effects, show initState.effects = [] from rfl, List.nil_append,
        effects_filter_of_mem w _ p hpfull hnd, hde]

/-- Witness for C7: a batch of three distinct emails whose middle
entry throws on its dedup select still processes the other two to
their normal outcomes and records exactly one error. -/
theorem C7_witness :
    (runBatch true initState ([(e71, env71)] ++ (e72, env72) :: [(e73, env73)])).stats.errors = 1 ∧
    ∀ p ∈ [(e71, env71)] ++ [(e73, env73)],
      (runBatch true initState ([(e71, env71)] ++ (e72, env72) :: [(e73, env73)])).rows.filter
        (fun r => r.messageId == p.1.id) = (processEmailDelta true p.2 p.1).rows ∧
      (runBatch true initState ([(e71, env71)] ++ (e72, env72) :: [(e73, env73)])).effects.filter
        (fun f => f.emailId == p.1.id) = (processEmailDelta true p.2 p.1).effects :=
  C7_batch_isolation true [(e71, env71)] [(e73, env73)] e72 env72 (by decide) (by decide) (by decide)

/-- Claim C8 counterexample: the internal filter is a substring test on
the address, not a domain-equality test: a sender at domain
alliancechemical.com.evil.com, which is not the operator domain, is
still hard-skipped (marked read, counted skipped, no row written). -/
theorem C8_internal_cex :
    isInternalAlliance e8C = true ∧
    handlerSenderDomain e8C = "alliancechemical.com.evil.com" ∧
    handlerSenderDomain e8C ≠ "alliancechemical.com" ∧
    processEmailDelta true env8C e8C =
      { rows := [], effects := [Effect.markRead "m8"], dSkipped := 1 } := by
  exact ⟨by decide, by decide, by decide, by decide⟩

/-- Claim C8 (amended): for every email not captured by an earlier
stage, the hard skip (mark read, count skipped, write no record) fires
exactly when the lower-cased sender address contains the substring
at-sign alliancechemical.com — which covers every sender at the
operator domain but also addresses whose domain merely extends it. -/
theorem C8_internal_amended (w : Bool) (env : EmailEnv) (email : Email)
    (hAF : getAutoFlagRule email = none) (hAS : getAutoSkipRule email = none)
    (hPO : andrePOCase email = false) :
    ((processEmailDelta w env email).dSkipped = 1 ↔ isInternalAlliance email = true) ∧
    (isInternalAlliance email = true →
      processEmailDelta w env email =
        { rows := [], effects := [Effect.markRead email.id], dSkipped := 1 }) := by
  unfold processEmailDelta
  simp only [hAF, hAS, hPO]
  by_cases hI : isInternalAlliance email = true
  · simp [hI, internalSkipDelta]
  · have hI' : isInternalAlliance email = false := by
      cases h : isInternalAlliance email
      · rfl
      · exact absurd h hI
    simp only [hI', hPO, Bool.false_eq_true, if_false]
    refine ⟨⟨fun hsk => ?_, fun h => False.elim h⟩, fun h => False.elim h⟩
    exfalso
    split at hsk
    · rw [amazonDelta_dSkipped] at hsk
      exact absurd hsk (by decide)
    · split at hsk
      · rw [systemDomainDelta_dSkipped] at hsk
        exact absurd hsk (by decide)
      · rw [finishClassified_dSkipped] at hsk
        exact absurd hsk (by decide)

/-- Witness for C8: a genuinely internal sender is hard-skipped with
no persisted row. -/
theorem C8_witness :
    ((processEmailDelta true env8W e8W).dSkipped = 1 ↔ isInternalAlliance e8W = true) ∧
    (isInternalAlliance e8W = true →
      processEmailDelta true env8W e8W =
        { rows := [], effects := [Effect.markRead e8W.id], dSkipped := 1 }) :=
  C8_internal_amended true env8W e8W (by decide) (by decide) (by decide)

/-- Claim C9: the sender-history lookup returns a sender-level
snapshot exactly when the exact sender has at least 2 observed
emails, otherwise a domain-level snapshot exactly when the domain has
at least 5, otherwise null; priority is high above a response rate of
0.7 (sender) or 0.6 (domain), low below 0.2 (sender) or 0.3 (domain),
and medium otherwise. -/
theorem C9_sender_history (se : String) (ss ds : Option FeedbackAgg) (dbE : Bool)
    (hse : se ≠ "") (hdb : dbE = false) :
    (∀ s : FeedbackAgg, ss = some s → 2 ≤ s.totalEmails →
      ∃ prio : String,
        getSenderHistory se ss ds dbE =
          some (SenderHistory.sender se s.totalEmails s.responseRate
            (s.avgResponseTime.getD 0) prio) ∧
        ((prio = "high") ↔ (0.7 : ℚ) < s.responseRate) ∧
        ((prio = "low") ↔ s.responseRate < (0.2 : ℚ)) ∧
        ((prio = "medium") ↔ ((0.2 : ℚ) ≤ s.responseRate ∧ s.responseRate ≤ (0.7 : ℚ)))) ∧
    (∀ g : FeedbackAgg, (ss = none ∨ ∃ s, ss = some s ∧ s.totalEmails < 2) →
      ds = some g → 5 ≤ g.totalEmails →
      ∃ prio : String,
        getSenderHistory se ss ds dbE =
          some (SenderHistory.domain (splitGetOne se) g.totalEmails g.responseRate prio) ∧
        ((prio = "high") ↔ (0.6 : ℚ) < g.responseRate) ∧
        ((prio = "low") ↔ g.responseRate < (0.3 : ℚ)) ∧
        ((prio = "medium") ↔ ((0.3 : ℚ) ≤ g.responseRate ∧ g.responseRate ≤ (0.6 : ℚ)))) ∧
    ((ss = none ∨ ∃ s, ss = some s ∧ s.totalEmails < 2) →
     (ds = none ∨ ∃ g, ds = some g ∧ g.totalEmails < 5) →
      getSenderHistory se ss ds dbE = none) := by
  subst hdb
  refine ⟨?_, ?_, ?_⟩
  · intro s hs h2
    subst hs
    refine ⟨senderPriority s.responseRate, ?_,
      (senderPriority_spec s.responseRate).1,
      (senderPriority_spec s.responseRate).2.1,
      (senderPriority_spec s.responseRate).2.2⟩
    simp [getSenderHistory, hse, h2]
  · intro g hsender hd h5
    subst hd
    refine ⟨domainPriority g.responseRate, ?_,
      (domainPriority_spec g.responseRate).1,
      (domainPriority_spec g.responseRate).2.1,
      (domainPriority_spec g.responseRate).2.2⟩
    rcases hsender with hs | ⟨s, hs, hlt⟩
    · subst hs
      simp [getSenderHistory, hse, domainSnapshot, h5]
    · subst hs
      simp [getSenderHistory, hse, domainSnapshot, h5, show ¬ 2 ≤ s.totalEmails by omega]
  · intro h1 h2
    rcases h1 with hs | ⟨s, hs, hslt⟩ <;> rcases h2 with hd | ⟨g, hd, hglt⟩
    · subst hs; subst hd
      simp [getSenderHistory, hse, domainSnapshot]
    · subst hs; subst hd
      simp [getSenderHistory, hse, domainSnapshot, show ¬ 5 ≤ g.totalEmails from by omega]
    · subst hs; subst hd
      simp [getSenderHistory, hse, domainSnapshot, show ¬ 2 ≤ s.totalEmails from by omega]
    · subst hs; subst hd
      simp [getSenderHistory, hse, domainSnapshot, show ¬ 2 ≤ s.totalEmails from by omega,
        show ¬ 5 ≤ g.totalEmails from by omega]

/-- Witness for C9: a sender with three observed emails gets a
sender-level snapshot whose priority obeys the thresholds. -/
theorem C9_witness :
    ∃ prio : String,
      getSenderHistory "alice@example.com" (some aggC9) none false =
        some (SenderHistory.sender "alice@example.com" aggC9.totalEmails aggC9.responseRate
          (aggC9.avgResponseTime.getD 0) prio) ∧
      ((prio = "high") ↔ (0.7 : ℚ) < aggC9.responseRate) ∧
      ((prio = "low") ↔ aggC9.responseRate < (0.2 : ℚ)) ∧
      ((prio = "medium") ↔ ((0.2 : ℚ) ≤ aggC9.responseRate ∧ aggC9.responseRate ≤ (0.7 : ℚ))) :=
  (C9_sender_history "alice@example.com" (some aggC9) none false (by decide) rfl).1 aggC9 rfl (by decide)

/-- Claim C10: on the learned-pattern or AI path the persisted row has
status flagged exactly when the label is in the flag set and status
processed in every other case — a skip-set label is persisted as
processed, never discarded, and an unknown label is persisted with
flagged false and status processed and fires no webhook even though
the mailbox flag is applied and the flagged counter increments. -/
theorem C10_persisted_status (w : Bool) (env : EmailEnv) (email : Email) (c : Verdict)
    (hif : env.insertFault = false) :
    (finishClassified w env email c).rows =
      [{ messageId := email.id, classification := c.classification,
         status := if c.classification ∈ CLASSIFICATIONS_TO_FLAG then "flagged" else "processed",
         flagged := CLASSIFICATIONS_TO_FLAG.contains c.classification,
         aiReasoning := c.reasoning, aiConfidence := c.confidence }] ∧
    (∀ row ∈ (finishClassified w env email c).rows, row.status ≠ "discarded") ∧
    (c.classification ∉ CLASSIFICATIONS_TO_FLAG → c.classification ∈ CLASSIFICATIONS_TO_SKIP →
      ∀ row ∈ (finishClassified w env email c).rows, row.status = "processed") ∧
    (c.classification ∉ CLASSIFICATIONS_TO_FLAG → c.classification ∉ CLASSIFICATIONS_TO_SKIP →
      (∀ row ∈ (finishClassified w env email c).rows,
        row.flagged = false ∧ row.status = "processed") ∧
      (∀ i : String, Effect.webhook i ∉ (finishClassified w env email c).effects) ∧
      Effect.applyFlag email.id "Needs manual review - unclear classification" ∈
        (finishClassified w env email c).effects ∧
      (finishClassified w env email c).dFlagged = 1) := by
  refine ⟨?_, ?_, ?_, ?_⟩
  · by_cases hF : c.classification ∈ CLASSIFICATIONS_TO_FLAG <;> simp [finishClassified, hif, hF]
  · by_cases hF : c.classification ∈ CLASSIFICATIONS_TO_FLAG <;> simp [finishClassified, hif, hF]
  · intro hF hS
    simp [finishClassified, hif, hF, hS]
  · intro hF hS
    refine ⟨?_, ?_, ?_, ?_⟩ <;> simp [finishClassified, hif, hF, hS]

/-- Witness for C10: a skip-set label on the AI path is persisted as
status processed, unflagged. -/
theorem C10_witness :
    (finishClassified true envC10 eC10 cC10).rows =
      [{ messageId := eC10.id, classification := cC10.classification,
         status := if cC10.classification ∈ CLASSIFICATIONS_TO_FLAG then "flagged" else "processed",
         flagged := CLASSIFICATIONS_TO_FLAG.contains cC10.classification,
         aiReasoning := cC10.reasoning, aiConfidence := cC10.confidence }] ∧
    (∀ row ∈ (finishClassified true envC10 eC10 cC10).rows, row.status ≠ "discarded") ∧
    (cC10.classification ∉ CLASSIFICATIONS_TO_FLAG → cC10.classification ∈ CLASSIFICATIONS_TO_SKIP →
      ∀ row ∈ (finishClassified true envC10 eC10 cC10).rows, row.status = "processed") ∧
    (cC10.classification ∉ CLASSIFICATIONS_TO_FLAG → cC10.classification ∉ CLASSIFICATIONS_TO_SKIP →
      (∀ row ∈ (finishClassified true envC10 eC10 cC10).rows,
        row.flagged = false ∧ row.status = "processed") ∧
      (∀ i : String, Effect.webhook i ∉ (finishClassified true envC10 eC10 cC10).effects) ∧
      Effect.applyFlag eC10.id "Needs manual review - unclear classification" ∈
        (finishClassified true envC10 eC10 cC10).effects ∧
      (finishClassified true envC10 eC10 cC10).dFlagged = 1) :=
  C10_persisted_status true envC10 eC10 cC10 rfl
